import Mathlib

/-!
# tls-cli: certificate issuance and chain verification

A shallow embedding of `pkg/cert` (`types.go`, `x509.go`, `verify.go`).

* Go `string` values are Lean `String`s (valid UTF-8): `len(s)` is
  `String.utf8ByteSize`, and `for _, r := range s` visits `s.data`.
* A Go `error` is `Option GoError`, `nil` being `none`.
* Calls into the Go standard library (`crypto/x509`, `encoding/pem`, `os`,
  `time`) and into packages of the module that are not part of `pkg/cert`
  are fields of an environment record; every theorem quantifies over it.
-/

namespace TlsCli

/-! ## Errors -/

/-- Errors as `fmt.Errorf` builds them: `errorf msg` is `fmt.Errorf(msg)`, and
`wrapf p cause` is `fmt.Errorf(p + "%w", cause)`. -/
inductive GoError where
  | errorf (msg : String)
  | wrapf (pfx : String) (cause : GoError)
  deriving DecidableEq, Repr

/-- The method `Error()` of an error value. -/
def GoError.Error : GoError → String
  | .errorf msg => msg
  | .wrapf pfx cause => pfx ++ cause.Error

/-- The method `Unwrap()` of an error value. -/
def GoError.Unwrap : GoError → Option GoError
  | .errorf _ => none
  | .wrapf _ cause => some cause

/-- The test `strings.Contains(s, substr)`, as a proposition. -/
def Contains (s substr : String) : Prop := substr.data <:+: s.data

/-! ## types.go -/

/-- The struct `CertSubject`. -/
structure CertSubject where
  Country : String := ""
  Organization : String := ""
  OrganizationalUnit : String := ""
  Locality : String := ""
  Province : String := ""
  StreetAddress : String := ""
  PostalCode : String := ""
  SerialNumber : String := ""
  CommonName : String := ""
  deriving DecidableEq, Repr

/-- The struct `CACert`; `Serial` is a `*big.Int`. -/
structure CACert where
  Serial : Option Int := none
  ValidForYears : Int := 0
  Subject : CertSubject := {}
  deriving DecidableEq, Repr

/-- The struct `Cert`. -/
structure Cert where
  Serial : Option Int := none
  ValidForYears : Int := 0
  Subject : CertSubject := {}
  DNSNames : List String := []
  deriving DecidableEq, Repr

/-- The loop of `isValidCountryCode` over the runes of the code. -/
def isValidCountryCodeLoop : List Char → Bool
  | [] => true
  | r :: rest =>
    if !(decide ('A' ≤ r) && decide (r ≤ 'Z')) && !(decide ('a' ≤ r) && decide (r ≤ 'z')) then
      false
    else
      isValidCountryCodeLoop rest

/-- The function `isValidCountryCode`. -/
def isValidCountryCode (code : String) : Bool :=
  isValidCountryCodeLoop code.data

/-- The method `(*CertSubject).Validate`. The receiver is a pointer, so the
result carries the receiver as the call leaves it next to the returned error. -/
def CertSubject.Validate (s : CertSubject) : CertSubject × Option GoError :=
  if s.CommonName = "" then
    (s, some (.errorf "common name is required"))
  else if s.Country ≠ "" then
    if s.Country.utf8ByteSize ≠ 2 then
      (s, some (.errorf "country code must be ISO 3166-1 alpha-2 format (2 letters)"))
    else if !isValidCountryCode s.Country then
      (s, some (.errorf "country code must contain only letters"))
    else
      (s, none)
  else
    (s, none)

/-- An ASCII letter, `A` to `Z` or `a` to `z`. -/
def IsAsciiLetter (c : Char) : Prop :=
  ('A' ≤ c ∧ c ≤ 'Z') ∨ ('a' ≤ c ∧ c ≤ 'z')

instance (c : Char) : Decidable (IsAsciiLetter c) := by
  unfold IsAsciiLetter; infer_instance

/-! ## x509.go -/

/-- A Go `[]byte`. -/
abbrev Bytes := List UInt8

/-- A `time.Time`, as an instant on an integer time line. -/
abbrev Time := Int

/-- The struct `pkix.Name`, without `Names` and `ExtraNames`. -/
structure Name where
  Country : List String := []
  Organization : List String := []
  OrganizationalUnit : List String := []
  Locality : List String := []
  Province : List String := []
  StreetAddress : List String := []
  PostalCode : List String := []
  SerialNumber : String := ""
  CommonName : String := ""
  deriving DecidableEq, Repr

/-- The bit `x509.KeyUsageDigitalSignature`, `1 << 0`. -/
def KeyUsageDigitalSignature : Nat := 1 <<< 0

/-- The bit `x509.KeyUsageCertSign`, `1 << 5`. -/
def KeyUsageCertSign : Nat := 1 <<< 5

/-- The constant `x509.ExtKeyUsageServerAuth`. -/
def ExtKeyUsageServerAuth : Nat := 1

/-- The constant `x509.ExtKeyUsageClientAuth`. -/
def ExtKeyUsageClientAuth : Nat := 2

/-- The fields of `x509.Certificate` that this package reads or writes; a
field left out of a literal has its zero value. -/
structure Certificate where
  SerialNumber : Option Int := none
  Issuer : Name := {}
  Subject : Name := {}
  NotBefore : Time := 0
  NotAfter : Time := 0
  KeyUsage : Nat := 0
  ExtKeyUsage : List Nat := []
  BasicConstraintsValid : Bool := false
  IsCA : Bool := false
  DNSNames : List String := []
  deriving DecidableEq, Repr

/-- The struct `rsa.PublicKey`. -/
structure PublicKey where
  N : Nat
  E : Nat
  deriving DecidableEq, Repr

/-- The struct `rsa.PrivateKey`, without the precomputed values. -/
structure PrivateKey where
  PublicKey : PublicKey
  D : Nat
  Primes : List Nat
  deriving DecidableEq, Repr

/-- The struct `pem.Block`; `Type_` is its field `Type`. -/
structure PemBlock where
  Type_ : String
  Headers : List (String × String) := []
  Bytes : Bytes
  deriving DecidableEq, Repr

/-- What `x509.go` calls outside the package. `R` is the state of the clock
and of the random source, `F` the state of the file system; only `writeFile`
touches `F`. -/
structure Env (R F : Type) where
  /-- The call `time.Now()`. -/
  timeNow : R → Time × R
  /-- The call `t.AddDate(years, months, days)`. -/
  addDate : Time → Int → Int → Int → Time
  /-- The call `key.CreateRSAPrivateKey(bits)`. -/
  createRSAPrivateKey : Nat → R → Except GoError PrivateKey × R
  /-- The call `key.RSAPrivateKeyToPEM(k)`. -/
  rsaPrivateKeyToPEM : PrivateKey → PemBlock
  /-- The call `key.PrivateKeyPemToRSA(pem)`. -/
  privateKeyPemToRSA : Bytes → Except GoError PrivateKey
  /-- The call `PemToX509(pem)`. -/
  pemToX509 : Bytes → Except GoError Certificate
  /-- The call `x509.CreateCertificate(rand.Reader, template, parent, pub, priv)`;
  `parent` and `priv` may be nil. -/
  createCertificate :
    Certificate → Option Certificate → PublicKey → Option PrivateKey → R → Except GoError Bytes × R
  /-- The call `pem.Encode(&buf, block)` on an empty buffer, giving the buffer. -/
  pemEncode : PemBlock → Except GoError Bytes
  /-- The call `os.WriteFile(name, data, perm)`. -/
  writeFile : String → Bytes → Nat → F → Option GoError × F

/-- The function `removeEmptyString`. -/
def removeEmptyString (input : List String) : List String :=
  if input.length = 1 ∧ input.head? = some "" then [] else input

/-- The end of `createCert`: both PEM encodings and the returned pair
(key bytes, certificate bytes). -/
def createCertEncode {R F : Type} (env : Env R F) (privateKey : PrivateKey) (derBytes : Bytes)
    (r : R) : Except GoError (Bytes × Bytes) × R :=
  match env.pemEncode { Type_ := "CERTIFICATE", Bytes := derBytes } with
  | .error err => (.error (.wrapf "failed to PEM encode certificate: " err), r)
  | .ok certOut =>
    match env.pemEncode (env.rsaPrivateKeyToPEM privateKey) with
    | .error err => (.error (.wrapf "failed to PEM encode private key: " err), r)
    | .ok keyOut => (.ok (keyOut, certOut), r)

/-- The function `createCert`. -/
def createCert {R F : Type} (env : Env R F) (template : Certificate)
    (caKey : Option PrivateKey) (caCert : Option Certificate) (r : R) :
    Except GoError (Bytes × Bytes) × R :=
  match env.createRSAPrivateKey 4096 r with
  | (.error err, r1) => (.error (.wrapf "failed to create private key: " err), r1)
  | (.ok privateKey, r1) =>
    if template.IsCA then
      match env.createCertificate template (some template) privateKey.PublicKey
          (some privateKey) r1 with
      | (.error err, r2) => (.error (.wrapf "failed to create CA certificate: " err), r2)
      | (.ok derBytes, r2) => createCertEncode env privateKey derBytes r2
    else
      match env.createCertificate template caCert privateKey.PublicKey caKey r1 with
      | (.error err, r2) => (.error (.wrapf "failed to create certificate: " err), r2)
      | (.ok derBytes, r2) => createCertEncode env privateKey derBytes r2

/-- The `pkix.Name` literal that `CreateCACert` and `CreateCert` both build
from the subject. -/
def subjectName (s : CertSubject) : Name :=
  { Country := removeEmptyString [s.Country]
    Organization := removeEmptyString [s.Organization]
    OrganizationalUnit := removeEmptyString [s.OrganizationalUnit]
    Locality := removeEmptyString [s.Locality]
    Province := removeEmptyString [s.Province]
    StreetAddress := removeEmptyString [s.StreetAddress]
    PostalCode := removeEmptyString [s.PostalCode]
    CommonName := s.CommonName }

/-- The template literal of `CreateCACert`; `now1` and `now2` are the two
readings of `time.Now()`. -/
def caTemplate {R F : Type} (env : Env R F) (ca : CACert) (now1 now2 : Time) : Certificate :=
  { SerialNumber := ca.Serial
    Subject := subjectName ca.Subject
    NotBefore := now1
    NotAfter := env.addDate now2 ca.ValidForYears 0 0
    IsCA := true
    ExtKeyUsage := [ExtKeyUsageClientAuth, ExtKeyUsageServerAuth]
    KeyUsage := KeyUsageDigitalSignature ||| KeyUsageCertSign
    BasicConstraintsValid := true }

/-- The template literal of `CreateCert`. -/
def certTemplate {R F : Type} (env : Env R F) (cert : Cert) (now1 now2 : Time) : Certificate :=
  { SerialNumber := cert.Serial
    Subject := subjectName cert.Subject
    NotBefore := now1
    NotAfter := env.addDate now2 cert.ValidForYears 0 0
    ExtKeyUsage := [ExtKeyUsageClientAuth, ExtKeyUsageServerAuth]
    KeyUsage := KeyUsageDigitalSignature
    DNSNames := removeEmptyString cert.DNSNames }

/-- The two `os.WriteFile` calls that end `CreateCACert` and `CreateCert`. -/
def writeKeyAndCert {R F : Type} (env : Env R F) (keyFilePath certFilePath : String)
    (keyBytes certBytes : Bytes) (fs : F) : Option GoError × F :=
  match env.writeFile keyFilePath keyBytes 0o600 fs with
  | (some err, fs1) => (some (.wrapf "failed to write key file: " err), fs1)
  | (none, fs1) =>
    match env.writeFile certFilePath certBytes 0o644 fs1 with
    | (some err, fs2) => (some (.wrapf "failed to write certificate file: " err), fs2)
    | (none, fs2) => (none, fs2)

/-- The function `CreateCACert`: the returned error, then the state of the
clock and random source and the state of the file system after the call. -/
def CreateCACert {R F : Type} (env : Env R F) (ca : CACert) (keyFilePath caCertFilePath : String)
    (r : R) (fs : F) : Option GoError × R × F :=
  match ca.Subject.Validate with
  | (_, some err) => (some (.wrapf "invalid CA certificate subject: " err), r, fs)
  | (subject, none) =>
    let (now1, r1) := env.timeNow r
    let (now2, r2) := env.timeNow r1
    let template := caTemplate env { ca with Subject := subject } now1 now2
    match createCert env template none none r2 with
    | (.error err, r3) => (some (.wrapf "failed to create CA certificate: " err), r3, fs)
    | (.ok (keyBytes, certBytes), r3) =>
      let (err, fs1) := writeKeyAndCert env keyFilePath caCertFilePath keyBytes certBytes fs
      (err, r3, fs1)

/-- The function `CreateCert`. -/
def CreateCert {R F : Type} (env : Env R F) (cert : Cert) (caKey caCert : Bytes)
    (keyFilePath certFilePath : String) (r : R) (fs : F) : Option GoError × R × F :=
  match cert.Subject.Validate with
  | (_, some err) => (some (.wrapf "invalid certificate subject: " err), r, fs)
  | (subject, none) =>
    let (now1, r1) := env.timeNow r
    let (now2, r2) := env.timeNow r1
    let template := certTemplate env { cert with Subject := subject } now1 now2
    match env.privateKeyPemToRSA caKey with
    | .error err => (some (.wrapf "failed to parse CA key: " err), r2, fs)
    | .ok caKeyParsed =>
      match env.pemToX509 caCert with
      | .error err => (some (.wrapf "failed to parse CA certificate: " err), r2, fs)
      | .ok caCertParsed =>
        match createCert env template (some caKeyParsed) (some caCertParsed) r2 with
        | (.error err, r3) => (some (.wrapf "failed to create certificate: " err), r3, fs)
        | (.ok (keyBytes, certBytes), r3) =>
          let (err, fs1) := writeKeyAndCert env keyFilePath certFilePath keyBytes certBytes fs
          (err, r3, fs1)

/-! ## verify.go -/

/-- The struct `x509.VerifyOptions`; only `Roots` is set by this package. -/
structure VerifyOptions (Pool : Type) where
  Roots : Option Pool := none

/-- What `verify.go` calls in `crypto/x509` and `encoding/pem`. `Pool` is
`x509.CertPool`. -/
structure VerifyEnv (Pool : Type) where
  /-- The call `x509.NewCertPool()`. -/
  newCertPool : Pool
  /-- The call `pool.AppendCertsFromPEM(pem)`: the pool after the call and
  whether a certificate was added. -/
  appendCertsFromPEM : Pool → Bytes → Pool × Bool
  /-- The call `pem.Decode(data)`: the first block, if there is one, and the rest. -/
  pemDecode : Bytes → Option PemBlock × Bytes
  /-- The call `x509.ParseCertificate(der)`. -/
  parseCertificate : Bytes → Except GoError Certificate
  /-- The call `cert.Verify(opts)`: the chains found, or the reason none validates. -/
  verify : Certificate → VerifyOptions Pool → Except GoError (List (List Certificate))

/-- One line of the chain log, the `fmt.Printf` of `VerifyCertificateChain`. -/
def chainLogLine (i j : Nat) (cert : Certificate) : String :=
  "Chain " ++ toString i ++ " Certificate " ++ toString j ++ ": Subject: " ++
    cert.Subject.CommonName ++ ", Issuer: " ++ cert.Issuer.CommonName ++ "\n"

/-- The two nested loops that log every certificate of every chain. -/
def chainLog (chains : List (List Certificate)) : List String :=
  chains.enum.flatMap fun ic => ic.2.enum.map fun jc => chainLogLine ic.1 jc.1 jc.2

/-- The function `VerifyCertificateChain`: the lines printed, then the
returned error. -/
def VerifyCertificateChain {Pool : Type} (env : VerifyEnv Pool) (certPEM caCertPEM : Bytes) :
    List String × Option GoError :=
  let (roots, added) := env.appendCertsFromPEM env.newCertPool caCertPEM
  if !added then
    ([], some (.errorf "failed to parse CA certificate"))
  else
    match env.pemDecode certPEM with
    | (none, _) => ([], some (.errorf "failed to parse certificate PEM"))
    | (some block, _) =>
      match env.parseCertificate block.Bytes with
      | .error err => ([], some (.wrapf "failed to parse certificate: " err))
      | .ok cert =>
        match env.verify cert { Roots := some roots } with
        | .error err => ([], some (.wrapf "certificate verification failed: " err))
        | .ok chains => (chainLog chains, none)

/-! ## Outcomes of a failed issuance -/

/-- The three ways an issuance ends in the error `e`, leaving the file system
as `fs2` after starting from `fs`: before any write, on the key file, or on
the certificate file once the key file is written. -/
def FailedIssuance {R F : Type} (env : Env R F) (keyFilePath certFilePath : String) (fs : F)
    (e : GoError) (fs2 : F) : Prop :=
  (fs2 = fs ∧ ∀ cause, e ≠ .wrapf "failed to write key file: " cause ∧
      e ≠ .wrapf "failed to write certificate file: " cause) ∨
  (∃ keyBytes cause, e = .wrapf "failed to write key file: " cause ∧
      env.writeFile keyFilePath keyBytes 0o600 fs = (some cause, fs2)) ∨
  ∃ keyBytes certBytes fs1 cause, e = .wrapf "failed to write certificate file: " cause ∧
    env.writeFile keyFilePath keyBytes 0o600 fs = (none, fs1) ∧
    env.writeFile certFilePath certBytes 0o644 fs1 = (some cause, fs2)

/-! ## A small environment for concrete runs -/

/-- A private key of the small environment: exponent `d` and modulus `n`. -/
def demoKey (d n : Nat) : PrivateKey :=
  { PublicKey := { N := n, E := 65537 }, D := d, Primes := [] }

/-- The authority certificate of the small environment. -/
def demoCA : Certificate :=
  { SerialNumber := some 1
    Issuer := { Country := ["US"], CommonName := "Test CA" }
    Subject := { Country := ["US"], CommonName := "Test CA" }
    NotAfter := 365
    KeyUsage := KeyUsageDigitalSignature ||| KeyUsageCertSign
    ExtKeyUsage := [ExtKeyUsageClientAuth, ExtKeyUsageServerAuth]
    BasicConstraintsValid := true
    IsCA := true }

/-- A small environment: the clock and random source are a counter, the file
system is the list of files written, PEM encoding puts the byte 45 in front, a
key is encoded as its `d`, a signed certificate records the signer's `d`, the
subject key's `n`, the length of the issuer's common name and the number of
DNS names, `[45, 9, 2, 7, 0]` is the certificate file of `demoCA`, and a file
with an empty name cannot be written. -/
def demoEnv : Env Nat (List (String × Bytes)) where
  timeNow r := (Int.ofNat r, r + 1)
  addDate t years months days := t + 365 * years + 30 * months + days
  createRSAPrivateKey bits r := (.ok (demoKey (r + 7) (bits + r)), r + 1)
  rsaPrivateKeyToPEM k := { Type_ := "RSA PRIVATE KEY", Bytes := [UInt8.ofNat k.D] }
  privateKeyPemToRSA pem :=
    match pem with
    | [45, d] => .ok (demoKey d.toNat 5000)
    | _ => .error (.errorf "failed to decode PEM block")
  pemToX509 pem :=
    if pem = [45, 9, 2, 7, 0] then .ok demoCA
    else .error (.errorf "failed to decode PEM block")
  createCertificate template parent pub signer r :=
    match parent, signer with
    | some issuer, some k =>
      (.ok [UInt8.ofNat k.D, UInt8.ofNat pub.N, UInt8.ofNat issuer.Subject.CommonName.length,
        UInt8.ofNat template.DNSNames.length], r + 1)
    | _, _ => (.error (.errorf "x509: missing parent or signing key"), r)
  pemEncode block := .ok (45 :: block.Bytes)
  writeFile name data _ fs :=
    if name = "" then (some (.errorf "open : no such file or directory"), fs)
    else (none, (name, data) :: fs.filter fun f => f.1 ≠ name)

/-- The leaf certificate of the small verification environment, issued by `demoCA`. -/
def demoLeaf : Certificate :=
  { SerialNumber := some 2
    Issuer := { Country := ["US"], CommonName := "Test CA" }
    Subject := { Country := ["US"], CommonName := "test.example.com" }
    NotAfter := 365
    KeyUsage := KeyUsageDigitalSignature
    ExtKeyUsage := [ExtKeyUsageClientAuth, ExtKeyUsageServerAuth] }

/-- A small verification environment, for the files of `demoEnv`:
`[45, 9, 2, 7, 0]` is the PEM of `demoCA`, `[45, 9, 12, 7, 2]` the PEM of
`demoLeaf`, `[45, 8, 12, 8, 2]` the PEM of a leaf of another authority, a pool
is the list of its certificates, and a leaf verifies against a pool when its
issuer is the subject of a member. -/
def demoVerifyEnv : VerifyEnv (List Certificate) where
  newCertPool := []
  appendCertsFromPEM pool pem :=
    if pem = [45, 9, 2, 7, 0] then (pool ++ [demoCA], true) else (pool, false)
  pemDecode data :=
    match data with
    | 45 :: rest => (some { Type_ := "CERTIFICATE", Bytes := rest }, [])
    | _ => (none, data)
  parseCertificate der :=
    if der = [9, 2, 7, 0] then .ok demoCA
    else if der = [9, 12, 7, 2] then .ok demoLeaf
    else if der = [8, 12, 8, 2] then
      .ok { demoLeaf with Issuer := { CommonName := "Other CA" } }
    else .error (.errorf "x509: malformed certificate")
  verify cert opts :=
    match (opts.Roots.getD []).filter fun root => root.Subject = cert.Issuer with
    | [] => .error (.errorf "x509: certificate signed by unknown authority")
    | found => .ok (found.map fun root => [cert, root])

/-- The bytes of the text "invalid". -/
def invalidBytes : Bytes := [105, 110, 118, 97, 108, 105, 100]

/-- The key file that `CreateCACert` writes for `testCA` in `demoEnv`. -/
def demoCAKeyPEM : Bytes := [45, 9]

/-- The certificate file that `CreateCACert` writes for `testCA` in `demoEnv`. -/
def demoCAPEM : Bytes := [45, 9, 2, 7, 0]

/-- The certificate file that `CreateCert` writes for `testCert` in `demoEnv`. -/
def demoLeafPEM : Bytes := [45, 9, 12, 7, 2]

/-- The certificate file of a leaf signed by another authority. -/
def otherLeafPEM : Bytes := [45, 8, 12, 8, 2]

/-- The authority spec of the tests. -/
def testCA : CACert :=
  { Serial := some 1, ValidForYears := 1
    Subject := { Country := "US", Organization := "Test Org", CommonName := "Test CA" } }

/-- The leaf spec of the tests. -/
def testCert : Cert :=
  { Serial := some 2, ValidForYears := 1
    Subject := { Country := "US", Organization := "Test Org", CommonName := "test.example.com" }
    DNSNames := ["test.example.com", "www.test.example.com"] }

/-! ## Subject validation -/

theorem isValidCountryCodeLoop_iff (l : List Char) :
    isValidCountryCodeLoop l = true ↔ ∀ c ∈ l, IsAsciiLetter c := by
  induction l with
  | nil => simp [isValidCountryCodeLoop]
  | cons r rest ih =>
    simp only [isValidCountryCodeLoop, List.mem_cons, forall_eq_or_imp, ← ih]
    by_cases h : IsAsciiLetter r
    · have h2 := h
      unfold IsAsciiLetter at h2
      rcases h2 with ⟨h1, h2⟩ | ⟨h1, h2⟩ <;> simp [h1, h2, h]
    · have h2 := h
      unfold IsAsciiLetter at h2
      simp only [not_or, not_and_or] at h2
      obtain ⟨h3, h4⟩ := h2
      have e1 : (decide ('A' ≤ r) && decide (r ≤ 'Z')) = false := by
        rcases h3 with h3 | h3 <;> simp [h3]
      have e2 : (decide ('a' ≤ r) && decide (r ≤ 'z')) = false := by
        rcases h4 with h4 | h4 <;> simp [h4]
      simp [e1, e2, h]

theorem utf8Size_of_asciiLetter (c : Char) (h : IsAsciiLetter c) : c.utf8Size = 1 := by
  have hz : c ≤ 'z' := by
    rcases h with ⟨_, h⟩ | ⟨_, h⟩
    · exact le_trans h (by decide)
    · exact h
  have hv : c.val.toNat ≤ 122 := hz
  have : c.val ≤ 127 := by
    show c.val.toNat ≤ 127
    omega
  simp [Char.utf8Size, this]

/-- A country code passes both checks of `Validate` exactly when it is made of
two ASCII letters. -/
theorem country_checks_iff (code : String) :
    (code.utf8ByteSize = 2 ∧ isValidCountryCode code = true) ↔
      ∃ a b, code = String.mk [a, b] ∧ IsAsciiLetter a ∧ IsAsciiLetter b := by
  obtain ⟨l⟩ := code
  simp only [isValidCountryCode, isValidCountryCodeLoop_iff, String.utf8ByteSize_mk,
    String.ext_iff]
  constructor
  · rintro ⟨hlen, hall⟩
    match l, hlen, hall with
    | [], hlen, _ => simp at hlen
    | [a], hlen, hall =>
      have := utf8Size_of_asciiLetter a (hall a (by simp))
      simp at hlen
      omega
    | [a, b], _, hall => exact ⟨a, b, rfl, hall a (by simp), hall b (by simp)⟩
    | a :: b :: c :: rest, hlen, _ =>
      have ha := a.utf8Size_pos
      have hb := b.utf8Size_pos
      have hc := c.utf8Size_pos
      simp at hlen
      omega
  · rintro ⟨a, b, rfl, ha, hb⟩
    refine ⟨?_, ?_⟩
    · simp [utf8Size_of_asciiLetter a ha, utf8Size_of_asciiLetter b hb]
    · intro c hc
      simp at hc
      rcases hc with rfl | rfl <;> assumption

theorem validate_fst (s : CertSubject) : (s.Validate).1 = s := by
  unfold CertSubject.Validate
  split_ifs <;> rfl

theorem validate_snd_of_commonName_empty (s : CertSubject) (h : s.CommonName = "") :
    (s.Validate).2 = some (.errorf "common name is required") := by
  simp [CertSubject.Validate, h]

/-- The error of `Validate` as a function of the common name and the country. -/
theorem validate_snd_eq (s : CertSubject) :
    (s.Validate).2 =
      if s.CommonName = "" then some (.errorf "common name is required")
      else if s.Country = "" then none
      else if s.Country.utf8ByteSize ≠ 2 then
        some (.errorf "country code must be ISO 3166-1 alpha-2 format (2 letters)")
      else if isValidCountryCode s.Country = false then
        some (.errorf "country code must contain only letters")
      else none := by
  unfold CertSubject.Validate
  split_ifs <;> simp_all

/-- C6: `Validate` returns no error exactly when the common name is non-empty
and the country is empty or made of two ASCII letters; it leaves the subject as
it was; and two subjects with the same common name and country get the same
result. -/
theorem validate_ok_iff (s : CertSubject) :
    ((s.Validate).2 = none ↔
      s.CommonName ≠ "" ∧
        (s.Country = "" ∨
          ∃ a b, s.Country = String.mk [a, b] ∧ IsAsciiLetter a ∧ IsAsciiLetter b)) ∧
    (s.Validate).1 = s ∧
    ∀ s' : CertSubject, s'.CommonName = s.CommonName → s'.Country = s.Country →
      (s'.Validate).2 = (s.Validate).2 := by
  refine ⟨?_, validate_fst s, ?_⟩
  · rw [validate_snd_eq, ← country_checks_iff]
    by_cases hcn : s.CommonName = ""
    · simp [hcn]
    · by_cases hc : s.Country = ""
      · simp [hcn, hc]
      · by_cases hlen : s.Country.utf8ByteSize = 2
        · cases hv : isValidCountryCode s.Country <;> simp [hcn, hc, hlen, hv]
        · simp [hcn, hc, hlen]
  · intro s' h1 h2
    rw [validate_snd_eq, validate_snd_eq, h1, h2]

/-- The countries "US", "us" and "Fr" pass, with the common name of the tests. -/
theorem validate_ok_iff_witness :
    (({ Country := "US", CommonName := "Test CA" } : CertSubject).Validate).2 = none ∧
      (({ Country := "us", CommonName := "Test CA" } : CertSubject).Validate).2 = none ∧
      (({ Country := "Fr", CommonName := "Test CA" } : CertSubject).Validate).2 = none :=
  ⟨(validate_ok_iff { Country := "US", CommonName := "Test CA" }).1.2
      ⟨by decide, Or.inr ⟨'U', 'S', rfl, by decide, by decide⟩⟩,
    (validate_ok_iff { Country := "us", CommonName := "Test CA" }).1.2
      ⟨by decide, Or.inr ⟨'u', 's', rfl, by decide, by decide⟩⟩,
    (validate_ok_iff { Country := "Fr", CommonName := "Test CA" }).1.2
      ⟨by decide, Or.inr ⟨'F', 'r', rfl, by decide, by decide⟩⟩⟩

/-- C8, amended: with a common name and a non-empty country, a country whose
UTF-8 encoding is not 2 bytes long (Go `len`) gets the country-length error,
and a country of 2 bytes holding a character that is not an ASCII letter gets
the country-characters error. -/
theorem validate_country_errors (s : CertSubject) (hcn : s.CommonName ≠ "")
    (hc : s.Country ≠ "") :
    (s.Country.utf8ByteSize ≠ 2 →
      (s.Validate).2 =
        some (.errorf "country code must be ISO 3166-1 alpha-2 format (2 letters)")) ∧
    (s.Country.utf8ByteSize = 2 → (∃ c ∈ s.Country.data, ¬ IsAsciiLetter c) →
      (s.Validate).2 = some (.errorf "country code must contain only letters")) := by
  rw [validate_snd_eq]
  constructor
  · intro hlen
    simp [hcn, hc, hlen]
  · intro hlen hex
    have hv : isValidCountryCode s.Country = false := by
      cases hv : isValidCountryCode s.Country
      · rfl
      · exfalso
        obtain ⟨c, hmem, hnot⟩ := hex
        exact hnot ((isValidCountryCodeLoop_iff _).1 hv c hmem)
    simp [hcn, hc, hlen, hv]

/-- The country "USA" of the tests gets the country-length error, and "U1"
the country-characters error. -/
theorem validate_country_errors_witness :
    (({ Country := "USA", CommonName := "Test CA" } : CertSubject).Validate).2 =
        some (.errorf "country code must be ISO 3166-1 alpha-2 format (2 letters)") ∧
      (({ Country := "U1", CommonName := "Test CA" } : CertSubject).Validate).2 =
        some (.errorf "country code must contain only letters") :=
  ⟨(validate_country_errors { Country := "USA", CommonName := "Test CA" }
      (by decide) (by decide)).1 (by decide),
    (validate_country_errors { Country := "U1", CommonName := "Test CA" }
      (by decide) (by decide)).2 (by decide) ⟨'1', by decide, by decide⟩⟩

/-- C8 fails as stated, with the length counted in characters: the country
"éé" is two characters long and holds a character that is not an ASCII
letter, yet `Validate` gives the country-length error and not the
country-characters error; the country "é" is one character long, yet
`Validate` gives the country-characters error and not the country-length
error. -/
theorem validate_country_errors_in_characters_false :
    ("éé".length = 2 ∧ (∃ c ∈ "éé".data, ¬ IsAsciiLetter c) ∧
      (({ Country := "éé", CommonName := "Test CA" } : CertSubject).Validate).2 =
        some (.errorf "country code must be ISO 3166-1 alpha-2 format (2 letters)") ∧
      (({ Country := "éé", CommonName := "Test CA" } : CertSubject).Validate).2 ≠
        some (.errorf "country code must contain only letters")) ∧
    ("é".length ≠ 2 ∧
      (({ Country := "é", CommonName := "Test CA" } : CertSubject).Validate).2 =
        some (.errorf "country code must contain only letters") ∧
      (({ Country := "é", CommonName := "Test CA" } : CertSubject).Validate).2 ≠
        some (.errorf "country code must be ISO 3166-1 alpha-2 format (2 letters)")) := by
  refine ⟨⟨by decide, ⟨'é', by decide, by decide⟩, by decide, by decide⟩,
    by decide, by decide, by decide⟩

theorem validate_of_commonName_empty (s : CertSubject) (h : s.CommonName = "") :
    s.Validate = (s, some (.errorf "common name is required")) := by
  simp [CertSubject.Validate, h]

theorem contains_self (s : String) : Contains s s := List.infix_refl _

/-- C7: a subject with an empty common name fails `Validate` with the error
"common name is required", whatever its other fields are, and `CreateCACert`
and `CreateCert` on a spec with that subject return an error wrapping it,
having changed nothing. -/
theorem missing_common_name {R F : Type} (env : Env R F) (s : CertSubject)
    (h : s.CommonName = "") :
    (s.Validate).2 = some (.errorf "common name is required") ∧
    (∀ (ca : CACert) (keyFilePath caCertFilePath : String) (r : R) (fs : F), ca.Subject = s →
      CreateCACert env ca keyFilePath caCertFilePath r fs =
        (some (.wrapf "invalid CA certificate subject: " (.errorf "common name is required")),
          r, fs)) ∧
    (∀ (cert : Cert) (caKey caCert : Bytes) (keyFilePath certFilePath : String) (r : R) (fs : F),
      cert.Subject = s →
      CreateCert env cert caKey caCert keyFilePath certFilePath r fs =
        (some (.wrapf "invalid certificate subject: " (.errorf "common name is required")),
          r, fs)) := by
  refine ⟨validate_snd_of_commonName_empty s h, ?_, ?_⟩
  · intro ca kp cp r fs hs
    subst hs
    simp [CreateCACert, validate_of_commonName_empty _ h]
  · intro cert caKey caCert kp cp r fs hs
    subst hs
    simp [CreateCert, validate_of_commonName_empty _ h]

/-- The "missing common name" case of the tests: country "US", no common name. -/
theorem missing_common_name_witness :
    CreateCACert demoEnv { Serial := some 1, ValidForYears := 1, Subject := { Country := "US" } }
        "ca-key.pem" "ca-cert.pem" 0 [] =
      (some (.wrapf "invalid CA certificate subject: " (.errorf "common name is required")),
        0, []) :=
  (missing_common_name demoEnv { Country := "US" } rfl).2.1 _ _ _ _ _ rfl

/-! ## Chain verification -/

/-- C1: `VerifyCertificateChain` returns nil exactly when an authority
certificate was added to the pool, the first PEM block of the leaf bytes
exists and parses, and `Verify` reports no error; when `Verify` reports an
error the result is that error wrapped as "certificate verification failed",
and when it reports chains the result is nil whatever their number. -/
theorem verify_chain_ok_iff {Pool : Type} (env : VerifyEnv Pool) (certPEM caCertPEM : Bytes) :
    ((VerifyCertificateChain env certPEM caCertPEM).2 = none ↔
      (env.appendCertsFromPEM env.newCertPool caCertPEM).2 = true ∧
        ∃ block, (env.pemDecode certPEM).1 = some block ∧
          ∃ cert, env.parseCertificate block.Bytes = .ok cert ∧
            ∃ chains, env.verify cert
              { Roots := some (env.appendCertsFromPEM env.newCertPool caCertPEM).1 } =
                .ok chains) ∧
    (∀ block cert cause, (env.appendCertsFromPEM env.newCertPool caCertPEM).2 = true →
      (env.pemDecode certPEM).1 = some block → env.parseCertificate block.Bytes = .ok cert →
      env.verify cert { Roots := some (env.appendCertsFromPEM env.newCertPool caCertPEM).1 } =
        .error cause →
      VerifyCertificateChain env certPEM caCertPEM =
        ([], some (.wrapf "certificate verification failed: " cause))) ∧
    (∀ block cert chains, (env.appendCertsFromPEM env.newCertPool caCertPEM).2 = true →
      (env.pemDecode certPEM).1 = some block → env.parseCertificate block.Bytes = .ok cert →
      env.verify cert { Roots := some (env.appendCertsFromPEM env.newCertPool caCertPEM).1 } =
        .ok chains →
      VerifyCertificateChain env certPEM caCertPEM = (chainLog chains, none)) := by
  unfold VerifyCertificateChain
  rcases hA : env.appendCertsFromPEM env.newCertPool caCertPEM with ⟨roots, added⟩
  rcases hD : env.pemDecode certPEM with ⟨blk, rest⟩
  cases added
  · simp
  · cases blk with
    | none => simp
    | some block =>
      cases hP : env.parseCertificate block.Bytes with
      | error e =>
        simp only [hP]
        refine ⟨by simp [hP], ?_, ?_⟩ <;> intro b c x _ hb hp <;> simp_all
      | ok cert =>
        cases hV : env.verify cert { Roots := some roots } with
        | error e =>
          simp only [hP, hV]
          refine ⟨by simp [hP, hV], ?_, ?_⟩ <;> intro b c x _ hb hp hv <;> simp_all
        | ok chains =>
          simp only [hP, hV]
          refine ⟨by simp [hP, hV], ?_, ?_⟩ <;> intro b c x _ hb hp hv <;> simp_all

/-- In the small environment the leaf of the authority verifies against it,
and the leaf of another authority fails with the wrapped cause. -/
theorem verify_chain_ok_iff_witness :
    VerifyCertificateChain demoVerifyEnv demoLeafPEM demoCAPEM =
        (["Chain 0 Certificate 0: Subject: test.example.com, Issuer: Test CA\n",
          "Chain 0 Certificate 1: Subject: Test CA, Issuer: Test CA\n"], none) ∧
      VerifyCertificateChain demoVerifyEnv otherLeafPEM demoCAPEM =
        ([], some (.wrapf "certificate verification failed: "
          (.errorf "x509: certificate signed by unknown authority"))) :=
  ⟨(verify_chain_ok_iff demoVerifyEnv demoLeafPEM demoCAPEM).2.2
      { Type_ := "CERTIFICATE", Bytes := [9, 12, 7, 2] } demoLeaf [[demoLeaf, demoCA]]
      rfl rfl rfl rfl,
    (verify_chain_ok_iff demoVerifyEnv otherLeafPEM demoCAPEM).2.1
      { Type_ := "CERTIFICATE", Bytes := [8, 12, 8, 2] }
      { demoLeaf with Issuer := { CommonName := "Other CA" } }
      (.errorf "x509: certificate signed by unknown authority") rfl rfl rfl rfl⟩

/-- C2: when no certificate is decoded from the authority bytes the returned
error is "failed to parse CA certificate", for every leaf input; when the
authority decodes and the leaf bytes hold no PEM block the returned error is
"failed to parse certificate PEM". -/
theorem verify_chain_malformed {Pool : Type} (env : VerifyEnv Pool) (caCertPEM : Bytes) :
    ((env.appendCertsFromPEM env.newCertPool caCertPEM).2 = false →
      ∀ certPEM : Bytes, ∃ e,
        VerifyCertificateChain env certPEM caCertPEM = ([], some e) ∧
          e = .errorf "failed to parse CA certificate" ∧
          Contains e.Error "failed to parse CA certificate") ∧
    ((env.appendCertsFromPEM env.newCertPool caCertPEM).2 = true →
      ∀ certPEM : Bytes, (env.pemDecode certPEM).1 = none → ∃ e,
        VerifyCertificateChain env certPEM caCertPEM = ([], some e) ∧
          e = .errorf "failed to parse certificate PEM" ∧
          Contains e.Error "failed to parse certificate PEM") := by
  unfold VerifyCertificateChain
  rcases hA : env.appendCertsFromPEM env.newCertPool caCertPEM with ⟨roots, added⟩
  constructor
  · intro h certPEM
    simp only at h
    subst h
    exact ⟨_, by simp, rfl, contains_self _⟩
  · intro h certPEM hD
    simp only at h
    subst h
    rcases hD2 : env.pemDecode certPEM with ⟨blk, rest⟩
    rw [hD2] at hD
    simp only at hD
    subst hD
    exact ⟨_, by simp, rfl, contains_self _⟩

/-- The two malformed inputs of the tests, the text "invalid" as authority
and as leaf. -/
theorem verify_chain_malformed_witness :
    VerifyCertificateChain demoVerifyEnv demoLeafPEM invalidBytes =
        ([], some (.errorf "failed to parse CA certificate")) ∧
      VerifyCertificateChain demoVerifyEnv invalidBytes demoCAPEM =
        ([], some (.errorf "failed to parse certificate PEM")) :=
  ⟨by
    obtain ⟨e, h, he, _⟩ := (verify_chain_malformed demoVerifyEnv invalidBytes).1 rfl demoLeafPEM
    rw [h, he],
   by
    obtain ⟨e, h, he, _⟩ :=
      (verify_chain_malformed demoVerifyEnv demoCAPEM).2 rfl invalidBytes rfl
    rw [h, he]⟩

/-! ## Issuance: files written -/

theorem writeKeyAndCert_cases {R F : Type} (env : Env R F) (keyFilePath certFilePath : String)
    (keyBytes certBytes : Bytes) (fs : F) (e : GoError)
    (h : (writeKeyAndCert env keyFilePath certFilePath keyBytes certBytes fs).1 = some e) :
    (∃ cause, e = .wrapf "failed to write key file: " cause ∧
        env.writeFile keyFilePath keyBytes 0o600 fs =
          (some cause, (writeKeyAndCert env keyFilePath certFilePath keyBytes certBytes fs).2)) ∨
      ∃ fs1 cause, e = .wrapf "failed to write certificate file: " cause ∧
        env.writeFile keyFilePath keyBytes 0o600 fs = (none, fs1) ∧
        env.writeFile certFilePath certBytes 0o644 fs1 =
          (some cause, (writeKeyAndCert env keyFilePath certFilePath keyBytes certBytes fs).2) := by
  unfold writeKeyAndCert at h ⊢
  rcases hk : env.writeFile keyFilePath keyBytes 0o600 fs with ⟨ek, fs1⟩
  rw [hk] at h
  cases ek with
  | some cause =>
    left
    simp only [Option.some.injEq] at h
    exact ⟨cause, h.symm, rfl⟩
  | none =>
    right
    rcases hc : env.writeFile certFilePath certBytes 0o644 fs1 with ⟨ec, fs2⟩
    simp only [hc] at h ⊢
    cases ec with
    | some cause =>
      simp only [Option.some.injEq] at h
      exact ⟨fs1, cause, h.symm, rfl, hc⟩
    | none => simp at h

theorem failedIssuance_of_write {R F : Type} (env : Env R F) (keyFilePath certFilePath : String)
    (keyBytes certBytes : Bytes) (fs : F) (e : GoError)
    (h : (writeKeyAndCert env keyFilePath certFilePath keyBytes certBytes fs).1 = some e) :
    FailedIssuance env keyFilePath certFilePath fs e
      (writeKeyAndCert env keyFilePath certFilePath keyBytes certBytes fs).2 := by
  rcases writeKeyAndCert_cases env keyFilePath certFilePath keyBytes certBytes fs e h with
    ⟨cause, he, hw⟩ | ⟨fs1, cause, he, hk, hc⟩
  · exact Or.inr (Or.inl ⟨keyBytes, cause, he, hw⟩)
  · exact Or.inr (Or.inr ⟨keyBytes, certBytes, fs1, cause, he, hk, hc⟩)

theorem failedIssuance_before_write {R F : Type} (env : Env R F) (keyFilePath certFilePath : String)
    (fs : F) (pfx : String) (cause : GoError) (h1 : pfx ≠ "failed to write key file: ")
    (h2 : pfx ≠ "failed to write certificate file: ") :
    FailedIssuance env keyFilePath certFilePath fs (.wrapf pfx cause) fs := by
  refine Or.inl ⟨rfl, fun c => ⟨?_, ?_⟩⟩ <;> intro h <;> injection h with h3 _ <;> contradiction

/-- C10, amended: when `CreateCACert` or `CreateCert` returns an error that
is not a file-write error, the file system is as before the call; when the
error is "failed to write key file", the only write attempted is the failed
write of the key file; when it is "failed to write certificate file", the key
file has been written and stays written. -/
theorem failed_issuance_files {R F : Type} (env : Env R F) (keyFilePath certFilePath : String)
    (r : R) (fs : F) :
    (∀ (ca : CACert) (e : GoError),
      (CreateCACert env ca keyFilePath certFilePath r fs).1 = some e →
      FailedIssuance env keyFilePath certFilePath fs e
        (CreateCACert env ca keyFilePath certFilePath r fs).2.2) ∧
    (∀ (cert : Cert) (caKey caCert : Bytes) (e : GoError),
      (CreateCert env cert caKey caCert keyFilePath certFilePath r fs).1 = some e →
      FailedIssuance env keyFilePath certFilePath fs e
        (CreateCert env cert caKey caCert keyFilePath certFilePath r fs).2.2) := by
  constructor
  · intro ca e h
    unfold CreateCACert at h ⊢
    rcases hv : ca.Subject.Validate with ⟨subject, verr⟩
    rw [hv] at h
    cases verr with
    | some err =>
      simp only [Option.some.injEq] at h
      subst h
      exact failedIssuance_before_write env _ _ fs _ _ (by decide) (by decide)
    | none =>
      simp only at h ⊢
      rcases hc : createCert env
        (caTemplate env { ca with Subject := subject } (env.timeNow r).1
          (env.timeNow (env.timeNow r).2).1) none none (env.timeNow (env.timeNow r).2).2
        with ⟨res, r3⟩
      rw [hc] at h
      cases res with
      | error err =>
        simp only [Option.some.injEq] at h
        subst h
        exact failedIssuance_before_write env _ _ fs _ _ (by decide) (by decide)
      | ok kc =>
        obtain ⟨keyBytes, certBytes⟩ := kc
        exact failedIssuance_of_write env _ _ keyBytes certBytes fs e h
  · intro cert caKey caCert e h
    unfold CreateCert at h ⊢
    rcases hv : cert.Subject.Validate with ⟨subject, verr⟩
    rw [hv] at h
    cases verr with
    | some err =>
      simp only [Option.some.injEq] at h
      subst h
      exact failedIssuance_before_write env _ _ fs _ _ (by decide) (by decide)
    | none =>
      simp only at h ⊢
      cases hk : env.privateKeyPemToRSA caKey with
      | error err =>
        rw [hk] at h
        simp only [Option.some.injEq] at h
        subst h
        exact failedIssuance_before_write env _ _ fs _ _ (by decide) (by decide)
      | ok caKeyParsed =>
        rw [hk] at h
        cases hx : env.pemToX509 caCert with
        | error err =>
          rw [hx] at h
          simp only [Option.some.injEq] at h
          subst h
          exact failedIssuance_before_write env _ _ fs _ _ (by decide) (by decide)
        | ok caCertParsed =>
          rw [hx] at h
          simp only at h ⊢
          rcases hc : createCert env
            (certTemplate env { cert with Subject := subject } (env.timeNow r).1
              (env.timeNow (env.timeNow r).2).1) (some caKeyParsed) (some caCertParsed)
            (env.timeNow (env.timeNow r).2).2 with ⟨res, r3⟩
          rw [hc] at h
          cases res with
          | error err =>
            simp only [Option.some.injEq] at h
            subst h
            exact failedIssuance_before_write env _ _ fs _ _ (by decide) (by decide)
          | ok kc =>
            obtain ⟨keyBytes, certBytes⟩ := kc
            exact failedIssuance_of_write env _ _ keyBytes certBytes fs e h

/-- C10 fails as stated: with a certificate path that cannot be written,
`CreateCACert` on the authority of the tests returns an error and the key
file is in the file system, which was empty before the call. -/
theorem failed_issuance_keeps_key_file :
    (CreateCACert demoEnv testCA "ca-key.pem" "" 0 []).1 =
        some (.wrapf "failed to write certificate file: "
          (.errorf "open : no such file or directory")) ∧
      (CreateCACert demoEnv testCA "ca-key.pem" "" 0 []).2.2 = [("ca-key.pem", [45, 9])] ∧
      (CreateCACert demoEnv testCA "ca-key.pem" "" 0 []).2.2 ≠ [] := by
  refine ⟨rfl, rfl, ?_⟩
  decide

/-- With a key path that cannot be written nothing is written, and with a
subject that fails validation nothing is written either. -/
theorem failed_issuance_files_witness :
    FailedIssuance demoEnv "" "ca-cert.pem" []
        (.wrapf "failed to write key file: " (.errorf "open : no such file or directory")) [] ∧
      FailedIssuance demoEnv "key.pem" "cert.pem" []
        (.wrapf "invalid certificate subject: "
          (.errorf "country code must be ISO 3166-1 alpha-2 format (2 letters)")) [] :=
  ⟨(failed_issuance_files demoEnv "" "ca-cert.pem" 0 []).1 testCA _ rfl,
    (failed_issuance_files demoEnv "key.pem" "cert.pem" 0 []).2
      { testCert with Subject := { Country := "USA", CommonName := "test.example.com" } }
      demoCAKeyPEM demoCAPEM _ rfl⟩

/-! ## Templates -/

/-- The result of `removeEmptyString`: empty for the list holding one empty
string, the input for every other list. -/
theorem removeEmptyString_eq (input : List String) :
    removeEmptyString input = if input = [""] then [] else input := by
  unfold removeEmptyString
  match input with
  | [] => simp
  | [x] => by_cases h : x = "" <;> simp [h]
  | x :: y :: rest => simp

/-- On a list of one string, `removeEmptyString` gives no entry for the empty
string and the string itself otherwise, and on any list its result agrees with
dropping the empty entries exactly when the list is `[""]` or has no empty
entry. -/
theorem removeEmptyString_spec (input : List String) (x : String) :
    removeEmptyString [x] = (if x = "" then [] else [x]) ∧
    (removeEmptyString input = input.filter (fun d => d ≠ "") ↔
      input = [""] ∨ "" ∉ input) := by
  refine ⟨?_, ?_⟩
  · rw [removeEmptyString_eq]
    by_cases h : x = "" <;> simp [h]
  · rw [removeEmptyString_eq]
    by_cases h : input = [""]
    · subst h
      simp
    · simp only [h, if_false, false_or]
      constructor
      · intro heq hmem
        rw [heq] at hmem
        simp at hmem
      · intro hmem
        symm
        rw [List.filter_eq_self]
        intro a ha
        have : a ≠ "" := fun h2 => hmem (h2 ▸ ha)
        simpa using this

/-- C5 at the DNS names `["test.example.com", ""]`: the leaf template keeps
the empty entry, and the certificate `CreateCert` writes records two DNS
names. -/
theorem dnsNames_empty_entry_kept :
    (certTemplate demoEnv { testCert with DNSNames := ["test.example.com", ""] } 10 11).DNSNames =
        ["test.example.com", ""] ∧
      CreateCert demoEnv { testCert with DNSNames := ["test.example.com", ""] } demoCAKeyPEM
          demoCAPEM "key.pem" "cert.pem" 10 [] =
        (none, 14, [("cert.pem", [45, 9, 12, 7, 2]), ("key.pem", [45, 19])]) :=
  ⟨rfl, rfl⟩

/-- C9 at a subject with serial number "12345": the subject passes
`Validate`, and the subject of the authority template and of the leaf
template has no serial number. -/
theorem subject_serialNumber_dropped :
    (({ CommonName := "Test CA", SerialNumber := "12345" } : CertSubject).Validate).2 = none ∧
      (caTemplate demoEnv
        { testCA with Subject := { CommonName := "Test CA", SerialNumber := "12345" } }
        0 1).Subject.SerialNumber = "" ∧
      (certTemplate demoEnv
        { testCert with Subject := { CommonName := "Test CA", SerialNumber := "12345" } }
        0 1).Subject.SerialNumber = "" :=
  ⟨rfl, rfl, rfl⟩

/-- The seven list-valued attributes of the subject that `CreateCACert` and
`CreateCert` build: each is absent for an empty field and holds the one value
otherwise; the common name is copied. -/
theorem subjectName_fields (s : CertSubject) :
    (subjectName s).Country = (if s.Country = "" then [] else [s.Country]) ∧
    (subjectName s).Organization = (if s.Organization = "" then [] else [s.Organization]) ∧
    (subjectName s).OrganizationalUnit =
      (if s.OrganizationalUnit = "" then [] else [s.OrganizationalUnit]) ∧
    (subjectName s).Locality = (if s.Locality = "" then [] else [s.Locality]) ∧
    (subjectName s).Province = (if s.Province = "" then [] else [s.Province]) ∧
    (subjectName s).StreetAddress = (if s.StreetAddress = "" then [] else [s.StreetAddress]) ∧
    (subjectName s).PostalCode = (if s.PostalCode = "" then [] else [s.PostalCode]) ∧
    (subjectName s).CommonName = s.CommonName := by
  simp only [subjectName, removeEmptyString_eq, List.cons.injEq, and_true]

theorem testBit_lt_64 (x i : Nat) (hx : x < 64) (hi : 6 ≤ i) : x.testBit i = false := by
  apply Nat.testBit_lt_two_pow
  calc x < 2 ^ 6 := hx
    _ ≤ 2 ^ i := Nat.pow_le_pow_right (by decide) hi

theorem keyUsage_ca_bits (i : Nat) :
    (KeyUsageDigitalSignature ||| KeyUsageCertSign).testBit i = true ↔ i = 0 ∨ i = 5 := by
  by_cases hi : 6 ≤ i
  · rw [testBit_lt_64 _ i (by decide) hi]
    constructor
    · intro h
      cases h
    · intro h
      omega
  · have hlt : i < 6 := by omega
    interval_cases i <;> decide

theorem keyUsage_leaf_bits (i : Nat) :
    KeyUsageDigitalSignature.testBit i = true ↔ i = 0 := by
  by_cases hi : 6 ≤ i
  · rw [testBit_lt_64 _ i (by decide) hi]
    constructor
    · intro h
      cases h
    · intro h
      omega
  · have hlt : i < 6 := by omega
    interval_cases i <;> decide

theorem createCert_of_isCA {R F : Type} (env : Env R F) (template : Certificate)
    (caKey : Option PrivateKey) (caCert : Option Certificate) (r r1 : R)
    (privateKey : PrivateKey) (hca : template.IsCA = true)
    (hk : env.createRSAPrivateKey 4096 r = (.ok privateKey, r1)) :
    createCert env template caKey caCert r =
      match env.createCertificate template (some template) privateKey.PublicKey
          (some privateKey) r1 with
      | (.error err, r2) => (.error (.wrapf "failed to create CA certificate: " err), r2)
      | (.ok derBytes, r2) => createCertEncode env privateKey derBytes r2 := by
  unfold createCert
  rw [hk]
  simp only [hca, if_true]

theorem createCert_of_not_isCA {R F : Type} (env : Env R F) (template : Certificate)
    (caKey : Option PrivateKey) (caCert : Option Certificate) (r r1 : R)
    (privateKey : PrivateKey) (hca : template.IsCA = false)
    (hk : env.createRSAPrivateKey 4096 r = (.ok privateKey, r1)) :
    createCert env template caKey caCert r =
      match env.createCertificate template caCert privateKey.PublicKey caKey r1 with
      | (.error err, r2) => (.error (.wrapf "failed to create certificate: " err), r2)
      | (.ok derBytes, r2) => createCertEncode env privateKey derBytes r2 := by
  unfold createCert
  rw [hk]
  simp [hca]

theorem validate_eq_of_ok (s : CertSubject) (h : (s.Validate).2 = none) :
    s.Validate = (s, none) :=
  Prod.ext (validate_fst s) h

/-- C4: for an authority spec with a valid subject, the template has the
authority flag and valid basic constraints, key usage with exactly the bits
digital signature and certificate signing, extended key usage client then
server authentication; `createCert` signs it with the template itself as
parent and the key generated in the call as signing key; and the whole of
`CreateCACert` follows from that one signing call. -/
theorem ca_template_self_signed {R F : Type} (env : Env R F) (ca : CACert)
    (keyFilePath caCertFilePath : String) (r r1 r2 r3 : R) (fs : F) (now1 now2 : Time)
    (privateKey : PrivateKey) (hvalid : (ca.Subject.Validate).2 = none)
    (h1 : env.timeNow r = (now1, r1)) (h2 : env.timeNow r1 = (now2, r2))
    (hk : env.createRSAPrivateKey 4096 r2 = (.ok privateKey, r3)) :
    (caTemplate env ca now1 now2).IsCA = true ∧
    (caTemplate env ca now1 now2).BasicConstraintsValid = true ∧
    (caTemplate env ca now1 now2).KeyUsage = KeyUsageDigitalSignature ||| KeyUsageCertSign ∧
    (∀ i, (caTemplate env ca now1 now2).KeyUsage.testBit i = true ↔ i = 0 ∨ i = 5) ∧
    (caTemplate env ca now1 now2).ExtKeyUsage = [ExtKeyUsageClientAuth, ExtKeyUsageServerAuth] ∧
    createCert env (caTemplate env ca now1 now2) none none r2 =
      (match env.createCertificate (caTemplate env ca now1 now2)
          (some (caTemplate env ca now1 now2)) privateKey.PublicKey (some privateKey) r3 with
      | (.error err, r4) => (.error (.wrapf "failed to create CA certificate: " err), r4)
      | (.ok derBytes, r4) => createCertEncode env privateKey derBytes r4) ∧
    CreateCACert env ca keyFilePath caCertFilePath r fs =
      (match createCert env (caTemplate env ca now1 now2) none none r2 with
      | (.error err, r5) => (some (.wrapf "failed to create CA certificate: " err), r5, fs)
      | (.ok (keyBytes, certBytes), r5) =>
        ((writeKeyAndCert env keyFilePath caCertFilePath keyBytes certBytes fs).1, r5,
          (writeKeyAndCert env keyFilePath caCertFilePath keyBytes certBytes fs).2)) := by
  refine ⟨rfl, rfl, rfl, keyUsage_ca_bits, rfl, ?_, ?_⟩
  · exact createCert_of_isCA env _ none none r2 r3 privateKey rfl hk
  · unfold CreateCACert
    rw [validate_eq_of_ok _ hvalid]
    simp only [h1, h2]

/-- The authority of the tests in the small environment: the signed
certificate records the generated key (`d = 9`) as signer and an issuer common
name of the subject's length, and both files are written. -/
theorem ca_template_self_signed_witness :
    createCert demoEnv (caTemplate demoEnv testCA 0 1) none none 2 =
        (.ok ([45, 9], [45, 9, 2, 7, 0]), 4) ∧
      CreateCACert demoEnv testCA "ca-key.pem" "ca-cert.pem" 0 [] =
        (none, 4, [("ca-cert.pem", [45, 9, 2, 7, 0]), ("ca-key.pem", [45, 9])]) :=
  have h := ca_template_self_signed demoEnv testCA "ca-key.pem" "ca-cert.pem" 0 1 2 3 [] 0 1
    (demoKey 9 4098) (by decide) rfl rfl rfl
  ⟨h.2.2.2.2.2.1.trans rfl, h.2.2.2.2.2.2.trans rfl⟩

/-- C3: for a leaf spec with a valid subject and an authority key and
certificate that parse, the template has the authority flag false, key usage
with exactly the bit digital signature (so not certificate signing), extended
key usage client then server authentication; `createCert` signs it with the
parsed authority certificate as parent and the parsed authority key as signing
key, the generated key giving only the public key; and the whole of
`CreateCert` follows from that one signing call. -/
theorem leaf_template_ca_signed {R F : Type} (env : Env R F) (cert : Cert)
    (caKey caCert : Bytes) (keyFilePath certFilePath : String) (r r1 r2 r3 : R) (fs : F)
    (now1 now2 : Time) (caKeyParsed privateKey : PrivateKey) (caCertParsed : Certificate)
    (hvalid : (cert.Subject.Validate).2 = none)
    (hkey : env.privateKeyPemToRSA caKey = .ok caKeyParsed)
    (hcert : env.pemToX509 caCert = .ok caCertParsed)
    (h1 : env.timeNow r = (now1, r1)) (h2 : env.timeNow r1 = (now2, r2))
    (hk : env.createRSAPrivateKey 4096 r2 = (.ok privateKey, r3)) :
    (certTemplate env cert now1 now2).IsCA = false ∧
    (certTemplate env cert now1 now2).KeyUsage = KeyUsageDigitalSignature ∧
    (∀ i, (certTemplate env cert now1 now2).KeyUsage.testBit i = true ↔ i = 0) ∧
    (certTemplate env cert now1 now2).KeyUsage &&& KeyUsageCertSign = 0 ∧
    (certTemplate env cert now1 now2).ExtKeyUsage =
      [ExtKeyUsageClientAuth, ExtKeyUsageServerAuth] ∧
    createCert env (certTemplate env cert now1 now2) (some caKeyParsed) (some caCertParsed) r2 =
      (match env.createCertificate (certTemplate env cert now1 now2) (some caCertParsed)
          privateKey.PublicKey (some caKeyParsed) r3 with
      | (.error err, r4) => (.error (.wrapf "failed to create certificate: " err), r4)
      | (.ok derBytes, r4) => createCertEncode env privateKey derBytes r4) ∧
    CreateCert env cert caKey caCert keyFilePath certFilePath r fs =
      (match createCert env (certTemplate env cert now1 now2) (some caKeyParsed)
          (some caCertParsed) r2 with
      | (.error err, r5) => (some (.wrapf "failed to create certificate: " err), r5, fs)
      | (.ok (keyBytes, certBytes), r5) =>
        ((writeKeyAndCert env keyFilePath certFilePath keyBytes certBytes fs).1, r5,
          (writeKeyAndCert env keyFilePath certFilePath keyBytes certBytes fs).2)) := by
  refine ⟨rfl, rfl, keyUsage_leaf_bits, ?_, rfl, ?_, ?_⟩
  · show KeyUsageDigitalSignature &&& KeyUsageCertSign = 0
    decide
  · exact createCert_of_not_isCA env _ _ _ r2 r3 privateKey rfl hk
  · unfold CreateCert
    rw [validate_eq_of_ok _ hvalid]
    simp only [h1, h2, hkey, hcert]

/-- The leaf of the tests in the small environment, with the authority key
`d = 9`: the signed certificate records `9` as signer, not the generated key
(`d = 19`), and the length of "Test CA" as issuer common name. -/
theorem leaf_template_ca_signed_witness :
    createCert demoEnv (certTemplate demoEnv testCert 10 11) (some (demoKey 9 5000))
        (some demoCA) 12 = (.ok ([45, 19], [45, 9, 12, 7, 2]), 14) ∧
      CreateCert demoEnv testCert demoCAKeyPEM demoCAPEM "key.pem" "cert.pem" 10 [] =
        (none, 14, [("cert.pem", [45, 9, 12, 7, 2]), ("key.pem", [45, 19])]) :=
  have h := leaf_template_ca_signed demoEnv testCert demoCAKeyPEM demoCAPEM "key.pem" "cert.pem"
    10 11 12 13 [] 10 11 (demoKey 9 5000) (demoKey 19 4108) demoCA (by decide) rfl rfl rfl rfl rfl
  ⟨h.2.2.2.2.2.1.trans rfl, h.2.2.2.2.2.2.trans rfl⟩

end TlsCli
